import Mathlib

/-
Verification of the client-side session/authentication layer
(frontend services/auth.ts and the api client module it imports).

The browser localStorage is modelled as an association list of
string keys to string values; the JavaScript notion of truthiness for
a value of type string-or-null is made explicit (null and the empty
string are falsy).  The axios request and response interceptors, the
401 refresh branch, and the exported auth service functions are
translated directly from the source.  Network effects (calls to the
POST /auth/refresh endpoint, assignments to window.location.href) are
tracked as counters in the result of each step.
-/

/-- localStorage, modelled as an association list from keys to values. -/
abbrev Storage := List (String × String)

/-- localStorage.getItem: the value at the first entry for the key, if any. -/
def getItem (s : Storage) (k : String) : Option String :=
  (s.find? (fun p => p.1 == k)).map (fun p => p.2)

/-- localStorage.setItem: overwrite any entry for the key. -/
def setItem (s : Storage) (k v : String) : Storage :=
  (k, v) :: s.filter (fun p => p.1 != k)

/-- localStorage.removeItem: drop every entry for the key. -/
def removeItem (s : Storage) (k : String) : Storage :=
  s.filter (fun p => p.1 != k)

/-- JavaScript truthiness of a value of type string-or-null:
null and the empty string are falsy, every other string is truthy. -/
def truthy : Option String → Bool
  | none => false
  | some s => s != ""

/-- Token storage key for the access token (TOKEN_KEY in the source). -/
def TOKEN_KEY : String := "auth_token"

/-- Token storage key for the refresh token (REFRESH_TOKEN_KEY in the source). -/
def REFRESH_TOKEN_KEY : String := "refresh_token"

namespace tokenManager

/-- tokenManager.getToken. -/
def getToken (s : Storage) : Option String := getItem s TOKEN_KEY

/-- tokenManager.setToken. -/
def setToken (s : Storage) (t : String) : Storage := setItem s TOKEN_KEY t

/-- tokenManager.getRefreshToken. -/
def getRefreshToken (s : Storage) : Option String := getItem s REFRESH_TOKEN_KEY

/-- tokenManager.setRefreshToken. -/
def setRefreshToken (s : Storage) (t : String) : Storage := setItem s REFRESH_TOKEN_KEY t

/-- tokenManager.clearTokens: removes both token keys. -/
def clearTokens (s : Storage) : Storage :=
  removeItem (removeItem s TOKEN_KEY) REFRESH_TOKEN_KEY

end tokenManager

/-- Basic storage lemma: after removeItem, the removed key reads as absent. -/
theorem getItem_removeItem_self (s : Storage) (k : String) :
    getItem (removeItem s k) k = none := by
  induction s with
  | nil => rfl
  | cons p t ih =>
    by_cases h : p.1 = k
    · have hb : (p.1 != k) = false := by simp [bne, h]
      simp only [removeItem, List.filter, hb]
      exact ih
    · have hb : (p.1 != k) = true := by simp [bne, h]
      simp only [removeItem, List.filter, hb]
      simp only [getItem, List.find?]
      have hb2 : (p.1 == k) = false := by simp [h]
      rw [hb2]
      exact ih

/-- Basic storage lemma: removeItem leaves every other key unchanged. -/
theorem getItem_removeItem_ne (s : Storage) (k q : String) (h : q ≠ k) :
    getItem (removeItem s k) q = getItem s q := by
  induction s with
  | nil => rfl
  | cons p t ih =>
    by_cases hp : p.1 = k
    · have hb : (p.1 != k) = false := by simp [bne, hp]
      have hq : (p.1 == q) = false := by
        simp only [beq_eq_false_iff_ne, ne_eq]
        intro hpq
        exact h (hpq ▸ hp ▸ rfl)
      simp only [removeItem, List.filter, hb] at ih ⊢
      rw [show getItem (p :: t) q = getItem t q by
        simp only [getItem, List.find?]
        rw [show (p.1 == q) = false from by
          simp only [beq_eq_false_iff_ne, ne_eq]
          intro hpq; exact h (by rw [← hpq, hp])]]
      simpa [removeItem] using ih
    · have hb : (p.1 != k) = true := by simp [bne, hp]
      simp only [removeItem, List.filter, hb] at ih ⊢
      by_cases hq : p.1 = q
      · simp [getItem, List.find?, hq]
      · have hq2 : (p.1 == q) = false := by simp [hq]
        simp only [getItem, List.find?, hq2]
        simpa [getItem, removeItem] using ih

/-- Basic storage lemma: after setItem, the written key reads the new value. -/
theorem getItem_setItem_self (s : Storage) (k v : String) :
    getItem (setItem s k v) k = some v := by
  simp [getItem, setItem, List.find?]

/-- Basic storage lemma: setItem leaves every other key unchanged. -/
theorem getItem_setItem_ne (s : Storage) (k q v : String) (h : q ≠ k) :
    getItem (setItem s k v) q = getItem s q := by
  have hk : (k == q) = false := by
    simp only [beq_eq_false_iff_ne, ne_eq]
    intro hkq; exact h hkq.symm
  simp only [setItem, getItem, List.find?, hk]
  have : (s.filter (fun p => p.1 != k)).find? (fun p => p.1 == q)
      = s.find? (fun p => p.1 == q) := by
    induction s with
    | nil => rfl
    | cons p t ih =>
      by_cases hp : p.1 = k
      · have hb : (p.1 != k) = false := by simp [bne, hp]
        have hq : (p.1 == q) = false := by
          simp only [beq_eq_false_iff_ne, ne_eq]
          intro hpq; exact h (by rw [← hpq, hp])
        simp only [List.filter, hb, List.find?, hq]
        exact ih
      · have hb : (p.1 != k) = true := by simp [bne, hp]
        simp only [List.filter, hb, List.find?]
        cases hpq : (p.1 == q) with
        | false => exact ih
        | true => rfl
  rw [this]

/-- Request configuration: the url, the Authorization header if set, and
the per-request retry marker written onto the config object by the 401
branch of the response interceptor. -/
structure RequestConfig where
  url : String
  authHeader : Option String := none
  retry : Bool := false
deriving DecidableEq, Repr

/-- error.response.data, as far as the response interceptor reads it:
an optional message and an optional field-error record. -/
structure ErrorData where
  message : Option String := none
  errors : Option (List (String × List String)) := none
deriving DecidableEq, Repr

/-- error.response: the HTTP status and the response body. -/
structure ErrResponse where
  status : Nat
  data : Option ErrorData := none
deriving DecidableEq, Repr

/-- An axios error as the response interceptor sees it: message, an
optional transport code, the originating request config (error.config,
which can be absent), and the response if one was received. -/
structure AxiosError where
  message : String
  code : Option String := none
  config : Option RequestConfig := none
  response : Option ErrResponse := none
deriving DecidableEq, Repr

/-- The ApiError object the interceptor builds for non-refresh errors. -/
structure ApiError where
  message : String
  status : Option Nat := none
  errors : Option (List (String × List String)) := none
deriving DecidableEq, Repr

/-- JavaScript a || b for a of type string-or-undefined and a string
fallback: the fallback is taken when a is absent or the empty string. -/
def jsOrS (a : Option String) (b : String) : String :=
  match a with
  | some s => if s = "" then b else s
  | none => b

/-- The ApiError built at the end of the response interceptor:
message from error.response.data.message, else error.message, else a
generic text; status from error.response.status; errors from
error.response.data.errors. -/
def mkApiError (e : AxiosError) : ApiError :=
  { message := jsOrS (e.response.bind (fun r => r.data.bind (fun d => d.message)))
      (jsOrS (some e.message) "An unexpected error occurred"),
    status := e.response.map (fun r => r.status),
    errors := e.response.bind (fun r => r.data.bind (fun d => d.errors)) }

/-- Body of the POST /auth/refresh response, as destructured by the
interceptor: access_token, and refresh_token which may be absent. -/
structure RefreshResponseData where
  access_token : String
  refresh_token : Option String := none
deriving DecidableEq, Repr

/-- Outcome of the POST /auth/refresh network call: the parsed body on
success, or the rejection error. -/
inductive RefreshResult where
  | ok (d : RefreshResponseData)
  | err (e : AxiosError)
deriving DecidableEq, Repr

/-- The value a refresh failure rejects with: either the thrown
Error("No refresh token available") or the rejection of the
axios.post call itself. -/
inductive RefreshErrorV where
  | noRefreshToken
  | network (e : AxiosError)
deriving DecidableEq, Repr

/-- The value the response interceptor rejects with: the caught
refresh error (Promise.reject(refreshError)) or the built ApiError. -/
inductive RejectValue where
  | refreshErr (e : RefreshErrorV)
  | apiErr (a : ApiError)
deriving DecidableEq, Repr

/-- Control outcome of one run of the response-error interceptor:
re-dispatch the original request (return client(originalRequest)) or
reject with a value. -/
inductive Outcome where
  | retry (req : RequestConfig)
  | rejected (v : RejectValue)
deriving DecidableEq, Repr

/-- Result of one run of the response-error interceptor: the updated
localStorage, the control outcome, and the observable effects — how
many POST /auth/refresh calls were issued and how many assignments to
window.location.href were made. -/
structure StepResult where
  storage : Storage
  outcome : Outcome
  refreshCalls : Nat
  navigations : Nat
deriving DecidableEq, Repr

/-- The request interceptor: read the stored access token and, when it
is truthy, set the Authorization header to "Bearer " followed by it. -/
def requestInterceptor (s : Storage) (config : RequestConfig) : RequestConfig :=
  let token := tokenManager.getToken s
  if truthy token then
    { config with authHeader := some ("Bearer " ++ token.getD "") }
  else config

/-- The success branch of the response interceptor: identity. -/
def responseInterceptorSuccess (response : RequestConfig × Nat × String) :
    RequestConfig × Nat × String := response

/-- The 401 branch of the response interceptor, entered when the error
status is 401 and the original request has not been retried: mark the
request retried, read the refresh token; if it is falsy throw (caught
below as a no-refresh-token failure, clearing both tokens and
navigating to /login); otherwise POST /auth/refresh, store the new
access token, store the new refresh token only when truthy, rewrite
the Authorization header to the new access token and re-dispatch; on
rejection of the refresh call, clear both tokens, navigate to /login
and reject with that refresh error. -/
def handle401 (refreshAPI : String → RefreshResult) (s : Storage)
    (originalRequest : RequestConfig) : StepResult :=
  let originalRequest := { originalRequest with retry := true }
  let refreshToken := tokenManager.getRefreshToken s
  if truthy refreshToken then
    match refreshAPI (refreshToken.getD "") with
    | RefreshResult.ok d =>
        let s1 := tokenManager.setToken s d.access_token
        let s2 := if truthy d.refresh_token then
            tokenManager.setRefreshToken s1 (d.refresh_token.getD "")
          else s1
        let req := { originalRequest with
          authHeader := some ("Bearer " ++ d.access_token) }
        { storage := s2, outcome := Outcome.retry req,
          refreshCalls := 1, navigations := 0 }
    | RefreshResult.err e =>
        { storage := tokenManager.clearTokens s,
          outcome := Outcome.rejected (RejectValue.refreshErr (RefreshErrorV.network e)),
          refreshCalls := 1, navigations := 1 }
  else
    { storage := tokenManager.clearTokens s,
      outcome := Outcome.rejected (RejectValue.refreshErr RefreshErrorV.noRefreshToken),
      refreshCalls := 0, navigations := 1 }

/-- The error branch of the response interceptor: enter the 401 branch
when error.response.status is 401, error.config is present and its
retry marker is unset; otherwise build an ApiError and reject. -/
def responseInterceptorError (refreshAPI : String → RefreshResult) (s : Storage)
    (error : AxiosError) : StepResult :=
  let unauthorized : Bool :=
    match error.response with
    | some r => r.status == 401
    | none => false
  match error.config with
  | some originalRequest =>
      if unauthorized && !originalRequest.retry then
        handle401 refreshAPI s originalRequest
      else
        { storage := s,
          outcome := Outcome.rejected (RejectValue.apiErr (mkApiError error)),
          refreshCalls := 0, navigations := 0 }
  | none =>
      { storage := s,
        outcome := Outcome.rejected (RejectValue.apiErr (mkApiError error)),
        refreshCalls := 0, navigations := 0 }

/-- Accumulated effects of handling a batch of authorization failures. -/
structure EpisodeResult where
  storage : Storage
  refreshCalls : Nat
  navigations : Nat
deriving DecidableEq, Repr

/-- A failure episode: each failing request runs its own copy of the
response-error interceptor, one after the other (the most favorable
sequentialization of the event loop — the implementation keeps no
in-flight renewal state, so every handler acts independently). -/
def episode (refreshAPI : String → RefreshResult) (s : Storage)
    (errors : List AxiosError) : EpisodeResult :=
  errors.foldl
    (fun acc e =>
      let r := responseInterceptorError refreshAPI acc.storage e
      { storage := r.storage,
        refreshCalls := acc.refreshCalls + r.refreshCalls,
        navigations := acc.navigations + r.navigations })
    { storage := s, refreshCalls := 0, navigations := 0 }

/-- Token response body of the login and refresh endpoints. -/
structure TokenResponse where
  access_token : String
  refresh_token : String
  token_type : String
deriving DecidableEq, Repr

namespace authService

/-- login: after the POST /auth/login call succeeds with body tokens,
store the access token and then the refresh token. -/
def login (s : Storage) (tokens : TokenResponse) : Storage :=
  tokenManager.setRefreshToken (tokenManager.setToken s tokens.access_token)
    tokens.refresh_token

/-- refreshToken: after the POST /auth/refresh call succeeds with body
tokens, store the access token and then the refresh token. -/
def refreshToken (s : Storage) (tokens : TokenResponse) : Storage :=
  tokenManager.setRefreshToken (tokenManager.setToken s tokens.access_token)
    tokens.refresh_token

/-- logout: clear the stored tokens. -/
def logout (s : Storage) : Storage := tokenManager.clearTokens s

/-- HTTP requests issued by the body of logout, read off the source:
it only calls tokenManager.clearTokens, so the list is empty. -/
def logoutHttpRequests : List String := []

/-- hasStoredTokens: double negation of tokenManager.getToken, that is
JavaScript truthiness of the stored access token. -/
def hasStoredTokens (s : Storage) : Bool := truthy (tokenManager.getToken s)

end authService

/-- Renewal state kept by the implementation between requests.  The
source stores no in-flight renewal marker of any kind — each 401
handler runs its refresh inline — so the state space has the single
inhabitant Idle. -/
inductive RefreshState where
  | Idle
deriving DecidableEq, Repr

/-- The credential-pair shape invariant: the access token and the
refresh token are both present or both absent in storage. -/
def bothOrNeither (s : Storage) : Prop :=
  (tokenManager.getToken s).isSome = (tokenManager.getRefreshToken s).isSome

/-- A truthy optional string is present. -/
theorem truthy_isSome (o : Option String) (h : truthy o = true) : o.isSome = true := by
  cases o with
  | none => simp [truthy] at h
  | some s => rfl

/-- Both token reads after clearTokens are absent. -/
theorem getToken_clearTokens (s : Storage) :
    tokenManager.getToken (tokenManager.clearTokens s) = none := by
  show getItem (removeItem (removeItem s TOKEN_KEY) REFRESH_TOKEN_KEY) TOKEN_KEY = none
  rw [getItem_removeItem_ne _ _ _ (by decide)]
  exact getItem_removeItem_self _ _

/-- The refresh-token read after clearTokens is absent. -/
theorem getRefreshToken_clearTokens (s : Storage) :
    tokenManager.getRefreshToken (tokenManager.clearTokens s) = none :=
  getItem_removeItem_self _ _

/-- Reading the access token is unaffected by writing the refresh token. -/
theorem getToken_setRefreshToken (s : Storage) (v : String) :
    tokenManager.getToken (tokenManager.setRefreshToken s v) = tokenManager.getToken s :=
  getItem_setItem_ne _ _ _ _ (by decide)

/-- Reading the refresh token is unaffected by writing the access token. -/
theorem getRefreshToken_setToken (s : Storage) (v : String) :
    tokenManager.getRefreshToken (tokenManager.setToken s v) = tokenManager.getRefreshToken s :=
  getItem_setItem_ne _ _ _ _ (by decide)

/-- A convenience constructor for the error handed to the response
interceptor when a request with config cfg receives a bare 401. -/
def err401 (url : String) (cfg : RequestConfig) : AxiosError :=
  { message := "Request failed with status code 401",
    config := some { cfg with url := url },
    response := some { status := 401 } }

/-- Storage holding the pair access "A1", refresh "R1". -/
def storedA1R1 : Storage :=
  tokenManager.setRefreshToken (tokenManager.setToken [] "A1") "R1"

/-- A refresh endpoint that answers every call with the pair A2/R2. -/
def refreshOk : String → RefreshResult :=
  fun _ => RefreshResult.ok { access_token := "A2", refresh_token := some "R2" }

/-- A transport-level error with no HTTP response. -/
def netFail : AxiosError := { message := "Network Error" }

/-- A refresh endpoint that rejects every call. -/
def refreshFail : String → RefreshResult := fun _ => RefreshResult.err netFail

/-- A plain request config before any interceptor has touched it. -/
def plainReq : RequestConfig := { url := "/players" }

/-- C1: single-flight renewal.  The implementation keeps no in-flight
renewal state: each 401 handler reads the refresh token and issues its
own POST /auth/refresh.  Two failing requests arriving while no
renewal is in flight produce two refresh calls, where the claim
requires exactly one. -/
theorem singleFlight_two_calls :
    (episode refreshOk storedA1R1
      [err401 "/a" { url := "/a" }, err401 "/b" { url := "/b" }]).refreshCalls = 2 := by
  rfl

/-- C2: terminal notification.  With five requests riding one failed
renewal, the implementation performs the terminal side effect (an
assignment of window.location.href inside the catch block) once per
request — five navigations, where the claim requires exactly one
logged-out event — and it is the core itself that navigates. -/
theorem terminalNotification_five_navigations :
    (episode refreshFail storedA1R1
      (List.replicate 5 (err401 "/p" { url := "/p" }))).navigations = 5 ∧
    (episode refreshFail storedA1R1
      (List.replicate 5 (err401 "/p" { url := "/p" }))).refreshCalls = 1 := by
  exact ⟨rfl, rfl⟩

/-- C3: no infinite retry.  For a request whose config is already
marked retried, a further 401 is not routed through the refresh
branch: storage is untouched, no refresh call is made, and the
failure is rejected to the caller; a retry outcome is only ever
produced from an unretried config and carries the retried marker, and
the request interceptor never changes the marker. -/
theorem no_infinite_retry (refreshAPI : String → RefreshResult) (s : Storage)
    (error : AxiosError) (cfg : RequestConfig) (h : error.config = some cfg) :
    (cfg.retry = true →
      responseInterceptorError refreshAPI s error =
        { storage := s,
          outcome := Outcome.rejected (RejectValue.apiErr (mkApiError error)),
          refreshCalls := 0, navigations := 0 }) ∧
    (∀ req, (responseInterceptorError refreshAPI s error).outcome = Outcome.retry req →
      cfg.retry = false ∧ req.retry = true) ∧
    (requestInterceptor s cfg).retry = cfg.retry := by
  obtain ⟨msg, code, ocfg, resp⟩ := error
  simp only at h
  subst h
  refine ⟨?_, ?_, ?_⟩
  · intro hr
    simp [responseInterceptorError, hr]
  · intro req hreq
    simp only [responseInterceptorError] at hreq
    cases hcr : cfg.retry with
    | true =>
      rw [hcr] at hreq
      simp at hreq
    | false =>
      refine ⟨rfl, ?_⟩
      rw [hcr] at hreq
      cases resp with
      | none => simp at hreq
      | some r =>
        by_cases h4 : (r.status == 401) = true
        · simp only [h4, Bool.not_false, Bool.and_true, if_pos] at hreq
          simp only [handle401] at hreq
          by_cases htr : truthy (tokenManager.getRefreshToken s) = true
          · rw [if_pos htr] at hreq
            cases hres : refreshAPI ((tokenManager.getRefreshToken s).getD "") with
            | ok d =>
              rw [hres] at hreq
              simp only [Outcome.retry.injEq] at hreq
              subst hreq
              rfl
            | err e =>
              rw [hres] at hreq
              simp at hreq
          · rw [if_neg htr] at hreq
            simp at hreq
        · have h4f : (r.status == 401) = false := by
            cases hb : (r.status == 401) with
            | false => rfl
            | true => exact absurd hb h4
          simp [h4f] at hreq
  · simp only [requestInterceptor]
    split
    · rfl
    · rfl

/-- C3 witness: a 401 on an already retried request is rejected with
the built ApiError, with no refresh call and storage untouched. -/
theorem no_infinite_retry_witness :
    responseInterceptorError refreshOk storedA1R1
        (err401 "/p" { url := "/p", retry := true }) =
      { storage := storedA1R1,
        outcome := Outcome.rejected (RejectValue.apiErr
          (mkApiError (err401 "/p" { url := "/p", retry := true }))),
        refreshCalls := 0, navigations := 0 } :=
  (no_infinite_retry refreshOk storedA1R1 _
    { url := "/p", authHeader := none, retry := true } rfl).1 rfl

/-- Storage holding the empty string under the access-token key. -/
def emptyTokenStore : Storage := tokenManager.setToken [] ""

/-- C4 counterexample: with the empty string stored as access token,
the store holds an access credential (getToken is some) yet the
request interceptor leaves the request untouched and it goes out
without an Authorization header, because JavaScript truthiness treats
the empty string as absent. -/
theorem credential_attach_cex :
    (tokenManager.getToken emptyTokenStore).isSome = true ∧
    requestInterceptor emptyTokenStore plainReq = plainReq ∧
    plainReq.authHeader = none := by
  exact ⟨rfl, rfl, rfl⟩

/-- C4 (amended): a request sent while a non-empty access credential
is stored carries it as a Bearer Authorization header; with no stored
access credential, or an empty one, the request goes out unchanged
(unauthenticated); and a request re-dispatched after a successful
renewal carries the post-renewal access credential, not the stale
one. -/
theorem credential_attach (s : Storage) (cfg : RequestConfig) :
    (∀ t, tokenManager.getToken s = some t → t ≠ "" →
      (requestInterceptor s cfg).authHeader = some ("Bearer " ++ t)) ∧
    (truthy (tokenManager.getToken s) = false → requestInterceptor s cfg = cfg) ∧
    (∀ refreshAPI url ocfg d,
      ocfg.retry = false →
      truthy (tokenManager.getRefreshToken s) = true →
      refreshAPI ((tokenManager.getRefreshToken s).getD "") = RefreshResult.ok d →
      (responseInterceptorError refreshAPI s (err401 url ocfg)).outcome =
        Outcome.retry
          { url := url, authHeader := some ("Bearer " ++ d.access_token),
            retry := true }) := by
  refine ⟨?_, ?_, ?_⟩
  · intro t ht hne
    have htt : truthy (some t) = true := by
      simp [truthy, hne]
    simp [requestInterceptor, ht, htt]
  · intro hf
    simp [requestInterceptor, hf]
  · intro refreshAPI url ocfg d hretry htr hres
    simp only [responseInterceptorError, err401, hretry]
    simp only [handle401]
    rw [if_pos htr, hres]
    rfl

/-- C4 witness: with the pair A1/R1 stored, an outgoing request
carries Bearer A1, and after a renewal returning A2 the re-dispatched
request carries Bearer A2. -/
theorem credential_attach_witness :
    (requestInterceptor storedA1R1 plainReq).authHeader = some ("Bearer " ++ "A1") ∧
    (responseInterceptorError refreshOk storedA1R1
        (err401 "/players" plainReq)).outcome =
      Outcome.retry
        { url := "/players", authHeader := some ("Bearer " ++ "A2"),
          retry := true } := by
  refine ⟨(credential_attach storedA1R1 plainReq).1 "A1" rfl (by decide), ?_⟩
  exact (credential_attach storedA1R1 plainReq).2.2 refreshOk "/players" plainReq
    { access_token := "A2", refresh_token := some "R2" } rfl rfl rfl

/-- C5: when renewal is attempted with no stored refresh credential,
the 401 branch throws before the refresh call: no POST /auth/refresh
is issued, the rejection is the no-refresh-token failure, and both
token keys are absent from storage afterwards. -/
theorem noCredential_shortCircuit (refreshAPI : String → RefreshResult) (s : Storage)
    (url : String) (ocfg : RequestConfig)
    (hr : tokenManager.getRefreshToken s = none) (hretry : ocfg.retry = false) :
    (responseInterceptorError refreshAPI s (err401 url ocfg)).refreshCalls = 0 ∧
    (responseInterceptorError refreshAPI s (err401 url ocfg)).outcome =
      Outcome.rejected (RejectValue.refreshErr RefreshErrorV.noRefreshToken) ∧
    tokenManager.getToken (responseInterceptorError refreshAPI s (err401 url ocfg)).storage
      = none ∧
    tokenManager.getRefreshToken
      (responseInterceptorError refreshAPI s (err401 url ocfg)).storage = none := by
  have hstep : responseInterceptorError refreshAPI s (err401 url ocfg) =
      { storage := tokenManager.clearTokens s,
        outcome := Outcome.rejected (RejectValue.refreshErr RefreshErrorV.noRefreshToken),
        refreshCalls := 0, navigations := 1 } := by
    simp only [responseInterceptorError, err401, hretry]
    simp only [handle401, hr]
    rfl
  rw [hstep]
  exact ⟨rfl, rfl, getToken_clearTokens s, getRefreshToken_clearTokens s⟩

/-- C5 witness: an empty store and a bare 401 produce zero refresh
calls, the no-refresh-token rejection, and an empty store. -/
theorem noCredential_shortCircuit_witness :
    (responseInterceptorError refreshOk [] (err401 "/players" plainReq)).refreshCalls = 0 ∧
    (responseInterceptorError refreshOk [] (err401 "/players" plainReq)).outcome =
      Outcome.rejected (RejectValue.refreshErr RefreshErrorV.noRefreshToken) ∧
    tokenManager.getToken
      (responseInterceptorError refreshOk [] (err401 "/players" plainReq)).storage = none ∧
    tokenManager.getRefreshToken
      (responseInterceptorError refreshOk [] (err401 "/players" plainReq)).storage = none :=
  noCredential_shortCircuit refreshOk [] "/players" plainReq rfl rfl

/-- C6: when the refresh call itself is rejected, both token keys are
cleared and the request is rejected with that refresh failure — not
with the stale 401 that started the episode. -/
theorem refreshFailure_semantics (refreshAPI : String → RefreshResult) (s : Storage)
    (url : String) (ocfg : RequestConfig) (e : AxiosError)
    (hretry : ocfg.retry = false)
    (htr : truthy (tokenManager.getRefreshToken s) = true)
    (hres : refreshAPI ((tokenManager.getRefreshToken s).getD "") = RefreshResult.err e) :
    responseInterceptorError refreshAPI s (err401 url ocfg) =
      { storage := tokenManager.clearTokens s,
        outcome := Outcome.rejected (RejectValue.refreshErr (RefreshErrorV.network e)),
        refreshCalls := 1, navigations := 1 } ∧
    tokenManager.getToken (tokenManager.clearTokens s) = none ∧
    tokenManager.getRefreshToken (tokenManager.clearTokens s) = none := by
  refine ⟨?_, getToken_clearTokens s, getRefreshToken_clearTokens s⟩
  simp only [responseInterceptorError, err401, hretry]
  simp only [handle401]
  rw [if_pos htr, hres]
  rfl

/-- C6 witness: with the pair A1/R1 stored and a failing refresh
endpoint, the step clears both tokens and rejects with the network
refresh failure. -/
theorem refreshFailure_semantics_witness :
    responseInterceptorError refreshFail storedA1R1 (err401 "/players" plainReq) =
      { storage := tokenManager.clearTokens storedA1R1,
        outcome := Outcome.rejected (RejectValue.refreshErr (RefreshErrorV.network netFail)),
        refreshCalls := 1, navigations := 1 } :=
  (refreshFailure_semantics refreshFail storedA1R1 "/players" plainReq netFail
    rfl rfl rfl).1

/-- A transport error carrying a code field, with no HTTP response. -/
def errWithCode : AxiosError := { message := "boom", code := some "ECONNABORTED" }

/-- The same transport error without the code field. -/
def errNoCode : AxiosError := { message := "boom" }

/-- A plain 500 error. -/
def err500 : AxiosError :=
  { message := "Request failed with status code 500",
    config := some { url := "/players", retry := true },
    response := some { status := 500 } }

/-- C7 counterexample: non-authorization errors are not returned
unchanged — the interceptor rejects with a freshly built ApiError.
Two distinct errors (differing in their code field) produce the very
same interceptor result, so the result cannot be the incoming error
unchanged; the rejected value is the normalized ApiError. -/
theorem nonAuth_passthrough_cex :
    errWithCode ≠ errNoCode ∧
    responseInterceptorError refreshOk [] errWithCode =
      responseInterceptorError refreshOk [] errNoCode ∧
    (responseInterceptorError refreshOk [] errWithCode).outcome =
      Outcome.rejected (RejectValue.apiErr
        { message := "boom", status := none, errors := none }) := by
  refine ⟨by decide, rfl, rfl⟩

/-- C7 (amended): a request failing with any error whose status is
not 401 (or with no response at all) never enters the refresh branch:
storage is untouched, no refresh call and no navigation happen, and
the caller receives the rejection of the ApiError normalized from the
error message, status and errors fields; successful responses pass
through the success interceptor unchanged. -/
theorem nonAuth_passthrough (refreshAPI : String → RefreshResult) (s : Storage)
    (error : AxiosError)
    (h : ∀ r, error.response = some r → r.status ≠ 401) :
    responseInterceptorError refreshAPI s error =
      { storage := s,
        outcome := Outcome.rejected (RejectValue.apiErr (mkApiError error)),
        refreshCalls := 0, navigations := 0 } ∧
    (∀ resp, responseInterceptorSuccess resp = resp) := by
  refine ⟨?_, fun resp => rfl⟩
  obtain ⟨msg, code, ocfg, resp⟩ := error
  cases resp with
  | none =>
    cases ocfg with
    | none => rfl
    | some cfg => simp [responseInterceptorError]
  | some r =>
    have hne : r.status ≠ 401 := h r rfl
    have hb : (r.status == 401) = false := by
      cases hbb : (r.status == 401) with
      | false => rfl
      | true =>
        rw [beq_iff_eq] at hbb
        exact absurd hbb hne
    cases ocfg with
    | none => rfl
    | some cfg => simp [responseInterceptorError, hb]

/-- C7 witness: a 500 error on an idle store is rejected as the
normalized ApiError with no refresh call, storage untouched. -/
theorem nonAuth_passthrough_witness :
    responseInterceptorError refreshOk storedA1R1 err500 =
      { storage := storedA1R1,
        outcome := Outcome.rejected (RejectValue.apiErr (mkApiError err500)),
        refreshCalls := 0, navigations := 0 } :=
  (nonAuth_passthrough refreshOk storedA1R1 err500
    (by intro r hr; cases hr; decide)).1

/-- handle401 preserves the both-or-neither shape of the stored pair
unconditionally: every exit either clears both tokens or writes the
access token while a truthy refresh token is already present. -/
theorem bothOrNeither_handle401 (refreshAPI : String → RefreshResult) (s : Storage)
    (ocfg : RequestConfig) :
    bothOrNeither ((handle401 refreshAPI s ocfg).storage) := by
  simp only [handle401]
  by_cases htr : truthy (tokenManager.getRefreshToken s) = true
  · rw [if_pos htr]
    cases hres : refreshAPI ((tokenManager.getRefreshToken s).getD "") with
    | ok d =>
      show bothOrNeither (if truthy d.refresh_token = true then
        tokenManager.setRefreshToken (tokenManager.setToken s d.access_token)
          (d.refresh_token.getD "") else tokenManager.setToken s d.access_token)
      by_cases hdt : truthy d.refresh_token = true
      · rw [if_pos hdt]
        show (tokenManager.getToken _).isSome = (tokenManager.getRefreshToken _).isSome
        rw [getToken_setRefreshToken]
        rw [show tokenManager.getRefreshToken (tokenManager.setRefreshToken
          (tokenManager.setToken s d.access_token) (d.refresh_token.getD "")) =
            some (d.refresh_token.getD "") from getItem_setItem_self _ _ _]
        rw [show tokenManager.getToken (tokenManager.setToken s d.access_token) =
            some d.access_token from getItem_setItem_self _ _ _]
        rfl
      · rw [if_neg hdt]
        show (tokenManager.getToken _).isSome = (tokenManager.getRefreshToken _).isSome
        rw [getRefreshToken_setToken]
        rw [show tokenManager.getToken (tokenManager.setToken s d.access_token) =
            some d.access_token from getItem_setItem_self _ _ _]
        rw [truthy_isSome _ htr]
        rfl
    | err e =>
      show bothOrNeither (tokenManager.clearTokens s)
      show (tokenManager.getToken _).isSome = (tokenManager.getRefreshToken _).isSome
      rw [getToken_clearTokens, getRefreshToken_clearTokens]
  · rw [if_neg htr]
    show (tokenManager.getToken _).isSome = (tokenManager.getRefreshToken _).isSome
    rw [getToken_clearTokens, getRefreshToken_clearTokens]

/-- C8: every operation of the core keeps the stored pair in the
both-or-neither shape: login and the refresh service write both
tokens, logout clears both, and any run of the response-error
interceptor either leaves storage alone, clears both, or writes the
access token while the refresh token is known present. -/
theorem credentialPair_invariant (s : Storage) (hs : bothOrNeither s) :
    (∀ t, bothOrNeither (authService.login s t)) ∧
    (∀ t, bothOrNeither (authService.refreshToken s t)) ∧
    bothOrNeither (authService.logout s) ∧
    (∀ refreshAPI error,
      bothOrNeither ((responseInterceptorError refreshAPI s error).storage)) := by
  have hset : ∀ t : TokenResponse, bothOrNeither
      (tokenManager.setRefreshToken (tokenManager.setToken s t.access_token)
        t.refresh_token) := by
    intro t
    show (tokenManager.getToken _).isSome = (tokenManager.getRefreshToken _).isSome
    rw [getToken_setRefreshToken]
    rw [show tokenManager.getRefreshToken (tokenManager.setRefreshToken
      (tokenManager.setToken s t.access_token) t.refresh_token) =
        some t.refresh_token from getItem_setItem_self _ _ _]
    rw [show tokenManager.getToken (tokenManager.setToken s t.access_token) =
        some t.access_token from getItem_setItem_self _ _ _]
    rfl
  refine ⟨hset, hset, ?_, ?_⟩
  · show (tokenManager.getToken (tokenManager.clearTokens s)).isSome
        = (tokenManager.getRefreshToken (tokenManager.clearTokens s)).isSome
    rw [getToken_clearTokens, getRefreshToken_clearTokens]
  · intro refreshAPI error
    obtain ⟨msg, code, ocfg, resp⟩ := error
    cases ocfg with
    | none => exact hs
    | some cfg =>
      simp only [responseInterceptorError]
      by_cases hc : ((match resp with
          | some r => r.status == 401
          | none => false) && !cfg.retry) = true
      · rw [if_pos hc]
        exact bothOrNeither_handle401 refreshAPI s cfg
      · rw [if_neg hc]
        exact hs

/-- C8 witness: the invariant holds of the empty store and is kept by
logout there. -/
theorem credentialPair_invariant_witness :
    bothOrNeither (authService.logout []) :=
  (credentialPair_invariant [] rfl).2.2.1

/-- C9: logout removes both token keys, issues no HTTP request (in
particular none to the refresh endpoint), leaves every other storage
key unchanged, and trivially leaves the renewal state Idle — the
implementation keeps no in-flight renewal marker, so Idle is the only
renewal state there is. -/
theorem logout_spec (s : Storage) :
    tokenManager.getToken (authService.logout s) = none ∧
    tokenManager.getRefreshToken (authService.logout s) = none ∧
    (∀ k, k ≠ TOKEN_KEY → k ≠ REFRESH_TOKEN_KEY →
      getItem (authService.logout s) k = getItem s k) ∧
    authService.logoutHttpRequests = [] ∧
    (∀ st : RefreshState, st = RefreshState.Idle) := by
  refine ⟨getToken_clearTokens s, getRefreshToken_clearTokens s, ?_, rfl, ?_⟩
  · intro k hk1 hk2
    show getItem (removeItem (removeItem s TOKEN_KEY) REFRESH_TOKEN_KEY) k = getItem s k
    rw [getItem_removeItem_ne _ _ _ hk2, getItem_removeItem_ne _ _ _ hk1]
  · intro st
    cases st
    rfl

/-- C9 witness: logging out from a store that also holds an unrelated
key clears both tokens and keeps the unrelated key. -/
theorem logout_spec_witness :
    tokenManager.getToken (authService.logout
      (("theme", "dark") :: storedA1R1)) = none ∧
    getItem (authService.logout (("theme", "dark") :: storedA1R1)) "theme"
      = getItem (("theme", "dark") :: storedA1R1) "theme" :=
  ⟨(logout_spec (("theme", "dark") :: storedA1R1)).1,
   (logout_spec (("theme", "dark") :: storedA1R1)).2.2.1 "theme"
     (by decide) (by decide)⟩

/-- C10 counterexample: with the empty string stored under the
access-token key, an access token is stored (getToken is some) yet
hasStoredTokens returns false, because the double negation in the
source is JavaScript truthiness and the empty string is falsy. -/
theorem hasStoredTokens_cex :
    tokenManager.getToken emptyTokenStore = some "" ∧
    authService.hasStoredTokens emptyTokenStore = false := by
  exact ⟨rfl, rfl⟩

/-- C10 (amended): hasStoredTokens returns true exactly when a
non-empty access token is stored, and it never consults the refresh
token — writing any refresh token value leaves its answer
unchanged. -/
theorem hasStoredTokens_spec (s : Storage) :
    (authService.hasStoredTokens s = true ↔
      ∃ t, tokenManager.getToken s = some t ∧ t ≠ "") ∧
    (∀ v, authService.hasStoredTokens (tokenManager.setRefreshToken s v)
      = authService.hasStoredTokens s) := by
  constructor
  · show truthy (tokenManager.getToken s) = true ↔ _
    cases h : tokenManager.getToken s with
    | none => simp [truthy]
    | some t => simp [truthy]
  · intro v
    show truthy (tokenManager.getToken (tokenManager.setRefreshToken s v))
      = truthy (tokenManager.getToken s)
    rw [getToken_setRefreshToken]

/-- C10 witness: with the pair A1/R1 stored, overwriting the refresh
token does not change the answer of hasStoredTokens. -/
theorem hasStoredTokens_spec_witness :
    authService.hasStoredTokens (tokenManager.setRefreshToken storedA1R1 "R9")
      = authService.hasStoredTokens storedA1R1 :=
  (hasStoredTokens_spec storedA1R1).2 "R9"
